import Mathlib

/-!
# ali-player: decode set-up, render loop and teardown of `src/main.cpp`

A shallow embedding of the three functions of `src/main.cpp`
(`get_vaapi_format`, `BuildShader`, `main`).  The program is a sequence of
calls into FFmpeg, SDL, GLEW and OpenGL; what those calls answer is not decided
by the program, so every answer is an input (`Env`), and what the program does
is the list of calls it makes, in order (`Call`), together with the value
`main` returns and the final value of `va_enable`.

Constants that come from library headers (`AV_PIX_FMT_NONE`, `SDL_QUIT`, ...)
are not fixed here: they are the fields of `Headers`.
-/

namespace AliPlayer

/-- Values of the header constants the program compares against, and of
`SDL_WINDOWEVENT`, the `event.type` of window events, which the program never
compares against. -/
structure Headers where
  AV_PIX_FMT_NONE : Int
  AV_PIX_FMT_VAAPI : Int
  SDL_QUIT : Nat
  SDL_WINDOWEVENT : Nat
  SDL_WINDOWEVENT_RESIZED : Nat
  GLEW_OK : Int
  GL_FALSE : Int
deriving DecidableEq

/-- Texts written with `printf` / `fprintf(stderr, ...)`, one per call site. -/
inductive Msg where
  /-- Line 27: "Unable to decode this file using VA-API." -/
  | unableVaapi
  /-- Line 74: "Compile Vertex Shader Error" -/
  | vertexShaderError
  /-- Line 93: "Compile Fragment Shader Error" -/
  | fragmentShaderError
  /-- Line 116: "Link Shader Program Error" -/
  | linkError
  /-- Line 148: "Usage : media_file" -/
  | usage
  /-- Line 156: "Failed to create a VAAPI device." -/
  | vaapiDeviceFailed
  /-- Line 162: "Failed to allocate decode packet" -/
  | packetAllocFailed
  /-- Line 168: "Cannot open input file" -/
  | cannotOpenInput
  /-- Line 174: "Cannot find input stream information." -/
  | noStreamInfo
  /-- Line 181: "Cannot find a video stream in the input file." -/
  | noVideoStream
  /-- Lines 192 and 210: "avcodec_parameters_to_context error." -/
  | parametersToContextError
  /-- Line 199: "A hardware device reference create failed." -/
  | hwRefFailed
  /-- Line 206: "Can not use vaapi , try to use cpu decoder!" -/
  | tryCpuDecoder
  /-- Line 218: "Decoder not found!" -/
  | decoderNotFound
  /-- Line 224: "Failed to open codec for decoding." -/
  | openCodecFailed
  /-- Line 232: "SDL Initializtion Error" -/
  | sdlInitError
  /-- Line 239: "SDL Create Window Error" -/
  | createWindowError
  /-- Line 249: "GLEW Initializtion Error" -/
  | glewInitError
deriving DecidableEq

/-- The three members of `SDL_Event` that `main` reads: `event.type`,
`event.window.event` and `event.window.windowID`. -/
structure SDL_Event where
  type : Nat
  window_event : Nat
  window_windowID : Nat
deriving DecidableEq

/-- Where the `AVCodec*` passed to `avcodec_open2` came from. -/
inductive DecoderSource where
  /-- The decoder stored by `av_find_best_stream` (line 179) -/
  | bestStream
  /-- The decoder returned by `avcodec_find_decoder(codec_id)` (line 215) -/
  | byCodecId
deriving DecidableEq

/-- The library functions the program calls. -/
inductive Fn where
  -- FFmpeg
  | av_hwdevice_ctx_create | av_packet_alloc | avformat_open_input
  | avformat_find_stream_info | av_find_best_stream | avcodec_alloc_context3
  | avcodec_parameters_to_context | av_buffer_ref | avcodec_find_decoder
  | av_read_frame | av_packet_unref | avformat_close_input | avcodec_free_context
  | av_buffer_unref | av_packet_free
  -- SDL / GLEW
  | SDL_Init | SDL_CreateWindow | SDL_GL_CreateContext | glewInit | SDL_Quit
  | SDL_DestroyWindow | SDL_GL_DeleteContext | SDL_GetPerformanceCounter
  | SDL_GetPerformanceFrequency | SDL_GetWindowID | SDL_GetWindowSize
  | SDL_GL_SwapWindow
  -- OpenGL
  | glCreateShader | glShaderSource | glCompileShader | glGetShaderiv
  | glGetShaderInfoLog | glDeleteShader | glCreateProgram | glAttachShader
  | glLinkProgram | glGetProgramiv | glGetProgramInfoLog | glDetachShader
  | glDeleteProgram | glGenBuffers | glBindBuffer | glBufferData
  | glVertexAttribPointer | glEnableVertexAttribArray | glBindAttribLocation
  | glGenTextures | glBindTexture | glTexParameteri | glGenerateMipmap
  | glViewport | glClear | glClearColor | glUseProgram | glActiveTexture
  | glDrawArrays | glDeleteBuffers | glDeleteTextures
deriving DecidableEq

/-- One call made by the program.  `call f args` carries the arguments and
answers that matter for what follows (object ids, return codes; a pointer
result is 1 when non-null and 0 when null). -/
inductive Call where
  | call (fn : Fn) (args : List Int)
  /-- The call `avcodec_open2(decoder_ctx, decoder, NULL)` and its result -/
  | avcodec_open2 (decoder : DecoderSource) (ret : Int)
  /-- Either `printf` (`stderr = false`) or `fprintf(stderr, ...)` -/
  | print (stderr : Bool) (m : Msg)
  /-- The call `SDL_PollEvent(&event)`: the event stored, or `none` when it returned 0 -/
  | SDL_PollEvent (event : Option SDL_Event)
deriving DecidableEq

/-- A pointer result as recorded in a `Call`. -/
def ptr (nonNull : Bool) : Int := if nonNull then 1 else 0

/-- One event handed out by `SDL_PollEvent`, with the window size that
`SDL_GetWindowSize` reports while that event is being handled. -/
structure Polled where
  event : SDL_Event
  width : Int
  height : Int
deriving DecidableEq

/-- What the world supplies to one pass of the `while(run)` loop: the events
pending when polling starts, the result of `av_read_frame`, and the
`stream_index` of the packet it delivered. -/
structure Iteration where
  events : List Polled
  read : Int
  stream_index : Int
deriving DecidableEq

/-- Answers of the libraries, one field per call site.  Pointer results are
`true` for a non-null pointer. -/
structure Env where
  av_hwdevice_ctx_create : Int
  av_packet_alloc : Bool
  avformat_open_input : Int
  avformat_find_stream_info : Int
  av_find_best_stream : Int
  avcodec_alloc_context3 : Bool
  /-- Result of `avcodec_parameters_to_context` at line 191 -/
  parameters_to_context : Int
  av_buffer_ref : Bool
  /-- Result of `avcodec_open2` at line 204, after the hardware device was attached -/
  open2_first : Int
  /-- Result of `avcodec_parameters_to_context` at line 209 -/
  parameters_to_context_again : Int
  avcodec_find_decoder : Bool
  /-- Result of `avcodec_open2` at line 222 -/
  open2_second : Int
  SDL_Init : Int
  SDL_CreateWindow : Bool
  glewInit : Int
  vertexShader : Nat
  vertexStatus : Int
  fragmentShader : Nat
  fragmentStatus : Int
  program : Nat
  linkStatus : Int
  vbo : Nat
  texture : Nat
  windowID : Nat
  /-- The passes of the render loop, in order -/
  script : List Iteration
deriving DecidableEq

/-! ## `get_vaapi_format` (lines 17-29) -/

/-- Lines 17-29.  `pix_fmts` is the memory the pointer walks over; the walk
stops at the first `AV_PIX_FMT_NONE`.  `none` means the walk left the array
without meeting a terminator.  The second component is what was written to
`stderr`. -/
def get_vaapi_format {Ctx : Type} (K : Headers) (ctx : Ctx) :
    List Int → Option (Int × List Call)
  | [] => none
  | p :: rest =>
    if p ≠ K.AV_PIX_FMT_NONE then
      if p = K.AV_PIX_FMT_VAAPI then some (p, [])
      else get_vaapi_format K ctx rest
    else some (K.AV_PIX_FMT_NONE, [Call.print true Msg.unableVaapi])

/-! ## `BuildShader` (lines 58-130) -/

/-- Lines 58-130: the returned program id (0 on failure) and the calls made. -/
def BuildShader (K : Headers) (env : Env) : Nat × List Call :=
  let vertexShader : Int := env.vertexShader
  let t1 := [Call.call Fn.glCreateShader [vertexShader],
    Call.call Fn.glShaderSource [vertexShader],
    Call.call Fn.glCompileShader [vertexShader],
    Call.call Fn.glGetShaderiv [vertexShader]]
  if K.GL_FALSE = env.vertexStatus then
    (0, t1 ++ [Call.call Fn.glGetShaderiv [vertexShader],
      Call.call Fn.glGetShaderInfoLog [vertexShader],
      Call.print true Msg.vertexShaderError,
      Call.call Fn.glDeleteShader [vertexShader]])
  else
    let fragmentShader : Int := env.fragmentShader
    let t2 := t1 ++ [Call.call Fn.glCreateShader [fragmentShader],
      Call.call Fn.glShaderSource [fragmentShader],
      Call.call Fn.glCompileShader [fragmentShader],
      Call.call Fn.glGetShaderiv [fragmentShader]]
    if K.GL_FALSE = env.fragmentStatus then
      (0, t2 ++ [Call.call Fn.glGetShaderiv [fragmentShader],
        Call.call Fn.glGetShaderInfoLog [fragmentShader],
        Call.print true Msg.fragmentShaderError,
        Call.call Fn.glDeleteShader [vertexShader],
        Call.call Fn.glDeleteShader [fragmentShader]])
    else
      let program : Int := env.program
      let t3 := t2 ++ [Call.call Fn.glCreateProgram [program],
        Call.call Fn.glAttachShader [program, vertexShader],
        Call.call Fn.glAttachShader [program, fragmentShader],
        Call.call Fn.glLinkProgram [program],
        Call.call Fn.glGetProgramiv [program]]
      if K.GL_FALSE = env.linkStatus then
        (0, t3 ++ [Call.call Fn.glGetProgramiv [program],
          Call.call Fn.glGetProgramInfoLog [program],
          Call.print true Msg.linkError,
          Call.call Fn.glDetachShader [program, vertexShader],
          Call.call Fn.glDetachShader [program, fragmentShader],
          Call.call Fn.glDeleteShader [vertexShader],
          Call.call Fn.glDeleteShader [fragmentShader],
          Call.call Fn.glDeleteProgram [program]])
      else
        (env.program, t3 ++ [Call.call Fn.glDetachShader [program, vertexShader],
          Call.call Fn.glDetachShader [program, fragmentShader]])

/-! ## The render loop (lines 287-336) -/

/-- Lines 302-307: the body of the event loop after the quit test. -/
def handleWindowEvent (K : Headers) (env : Env) (p : Polled) : List Call :=
  if p.event.window_event = K.SDL_WINDOWEVENT_RESIZED then
    Call.call Fn.SDL_GetWindowID [env.windowID] ::
      (if p.event.window_windowID = env.windowID then
        [Call.call Fn.SDL_GetWindowSize [p.width, p.height],
         Call.call Fn.glViewport [0, 0, p.width, p.height]]
      else [])
  else []

/-- Lines 294-308: `while(SDL_PollEvent(&event))`.  The argument is the queue
of pending events; the result is the value of `run` afterwards and the calls
made. -/
def pollEvents (K : Headers) (env : Env) : List Polled → Bool × List Call
  | [] => (true, [Call.SDL_PollEvent none])
  | p :: rest =>
    if p.event.type = K.SDL_QUIT then
      (false, [Call.SDL_PollEvent (some p.event)])
    else
      let r := pollEvents K env rest
      (r.1, Call.SDL_PollEvent (some p.event) :: (handleWindowEvent K env p ++ r.2))

/-- Lines 313-316: the decode block, which is empty in the source. -/
def decodeAndUpdate (video_stream : Int) (it : Iteration) : List Call :=
  if video_stream = it.stream_index then [] else []

/-- Lines 320-335: clear, draw the quad, present. -/
def draw (shader_program vbo texture : Nat) : List Call :=
  [Call.call Fn.glClear [], Call.call Fn.glClearColor [],
   Call.call Fn.glUseProgram [shader_program],
   Call.call Fn.glActiveTexture [],
   Call.call Fn.glBindTexture [texture],
   Call.call Fn.glBindBuffer [vbo],
   Call.call Fn.glDrawArrays [0, 6],
   Call.call Fn.glBindBuffer [0],
   Call.call Fn.glBindTexture [0],
   Call.call Fn.glUseProgram [0],
   Call.call Fn.SDL_GL_SwapWindow []]

/-- Lines 289-311 of one pass: timing, event polling and the packet read.
The result is `run` after polling and the calls made. -/
def passHead (K : Headers) (env : Env) (it : Iteration) : Bool × List Call :=
  let r := pollEvents K env it.events
  (r.1, [Call.call Fn.SDL_GetPerformanceCounter [],
         Call.call Fn.SDL_GetPerformanceFrequency []] ++ r.2 ++
        [Call.call Fn.av_read_frame [it.read]])

/-- Lines 313-335 of one pass, reached when the read succeeded. -/
def passTail (video_stream : Int) (shader_program vbo texture : Nat)
    (it : Iteration) : List Call :=
  decodeAndUpdate video_stream it ++ [Call.call Fn.av_packet_unref []] ++
    draw shader_program vbo texture

/-- Lines 287-336: `while(run)`.  The result is the value of `ret` when the
loop is left and the calls made; `none` when the script ends while the loop is
still running. -/
def renderLoop (K : Headers) (env : Env) (video_stream : Int)
    (shader_program vbo texture : Nat) : List Iteration → Option (Int × List Call)
  | [] => none
  | it :: rest =>
    let h := passHead K env it
    if it.read < 0 then some (it.read, h.2)
    else
      let body := h.2 ++ passTail video_stream shader_program vbo texture it
      if h.1 then
        (renderLoop K env video_stream shader_program vbo texture rest).map
          (fun r => (r.1, body ++ r.2))
      else some (it.read, body)

/-! ## `main` (lines 132-353) -/

/-- State after lines 204-228: whether a decoder is open, `ret`, `va_enable`
and the calls made. -/
structure Opened where
  ok : Bool
  ret : Int
  va_enable : Bool
  calls : List Call
deriving DecidableEq

/-- Lines 204-228: open the decoder with the hardware device attached and, when
that fails, once more with the decoder found by codec id. -/
def openDecoder (env : Env) : Opened :=
  if env.open2_first < 0 then
    let t1 := [Call.avcodec_open2 DecoderSource.bestStream env.open2_first,
      Call.print false Msg.tryCpuDecoder,
      Call.call Fn.avcodec_parameters_to_context [env.parameters_to_context_again]]
    if env.parameters_to_context_again < 0 then
      ⟨false, env.parameters_to_context_again, false,
        t1 ++ [Call.print true Msg.parametersToContextError]⟩
    else
      let t2 := t1 ++ [Call.call Fn.avcodec_find_decoder [ptr env.avcodec_find_decoder]]
      if !env.avcodec_find_decoder then
        ⟨false, env.parameters_to_context_again, false,
          t2 ++ [Call.print true Msg.decoderNotFound]⟩
      else
        let t3 := t2 ++ [Call.avcodec_open2 DecoderSource.byCodecId env.open2_second]
        if env.open2_second < 0 then
          ⟨false, env.open2_second, false, t3 ++ [Call.print true Msg.openCodecFailed]⟩
        else ⟨true, env.open2_second, false, t3⟩
  else
    ⟨true, env.open2_first, true,
      [Call.avcodec_open2 DecoderSource.bestStream env.open2_first]⟩

/-- Lines 260-286: vertex buffer, attribute bindings, texture, first timer
read. -/
def createGpuObjects (shader_program vbo texture : Nat) : List Call :=
  [Call.call Fn.glGenBuffers [vbo], Call.call Fn.glBindBuffer [vbo],
   Call.call Fn.glBufferData [],
   Call.call Fn.glVertexAttribPointer [0], Call.call Fn.glVertexAttribPointer [1],
   Call.call Fn.glEnableVertexAttribArray [0],
   Call.call Fn.glEnableVertexAttribArray [1],
   Call.call Fn.glBindBuffer [0],
   Call.call Fn.glBindAttribLocation [shader_program, 0],
   Call.call Fn.glBindAttribLocation [shader_program, 1],
   Call.call Fn.glGenTextures [texture], Call.call Fn.glBindTexture [texture],
   Call.call Fn.glTexParameteri [], Call.call Fn.glTexParameteri [],
   Call.call Fn.glTexParameteri [], Call.call Fn.glTexParameteri [],
   Call.call Fn.glGenerateMipmap [], Call.call Fn.glBindTexture [0],
   Call.call Fn.SDL_GetPerformanceCounter []]

/-- Lines 338-344: what follows the loop inside the `do` block. -/
def destroyGpuObjects (shader_program vbo texture : Nat) : List Call :=
  [Call.call Fn.glDeleteBuffers [vbo], Call.call Fn.glDeleteTextures [texture],
   Call.call Fn.glDeleteProgram [shader_program],
   Call.call Fn.SDL_GL_DeleteContext [], Call.call Fn.SDL_DestroyWindow [],
   Call.call Fn.SDL_Quit []]

/-- Lines 230-344: window, GL context, shader, GPU objects, the render loop and
the clean-up after it.  `ret` is the value of `ret` on entry; the result is
`ret` at the end of the `do` block and the calls made. -/
def present (K : Headers) (env : Env) (video_stream ret : Int) :
    Option (Int × List Call) :=
  let t1 := [Call.call Fn.SDL_Init [env.SDL_Init]]
  if env.SDL_Init < 0 then some (ret, t1 ++ [Call.print true Msg.sdlInitError])
  else
    let t2 := t1 ++ [Call.call Fn.SDL_CreateWindow [ptr env.SDL_CreateWindow]]
    if !env.SDL_CreateWindow then
      some (ret, t2 ++ [Call.print true Msg.createWindowError, Call.call Fn.SDL_Quit []])
    else
      let t3 := t2 ++ [Call.call Fn.SDL_GL_CreateContext [],
        Call.call Fn.glewInit [env.glewInit]]
      if K.GLEW_OK ≠ env.glewInit then
        some (ret, t3 ++ [Call.print true Msg.glewInitError,
          Call.call Fn.SDL_DestroyWindow [], Call.call Fn.SDL_Quit []])
      else
        let b := BuildShader K env
        let shader_program := b.1
        let t4 := t3 ++ b.2
        if shader_program = 0 then some (ret, t4)
        else
          (renderLoop K env video_stream shader_program env.vbo env.texture
              env.script).map
            (fun r => (r.1, t4 ++ createGpuObjects shader_program env.vbo env.texture
              ++ r.2 ++ destroyGpuObjects shader_program env.vbo env.texture))

/-- How the `do { ... } while(0)` block of lines 152-345 was left. -/
structure Body where
  /-- Set when `main` was left by the `return -1` of line 157 -/
  returned : Bool
  ret : Int
  va_enable : Bool
  trace : List Call
deriving DecidableEq

/-- Lines 152-345. -/
def doBlock (K : Headers) (env : Env) : Option Body :=
  let t1 := [Call.call Fn.av_hwdevice_ctx_create [env.av_hwdevice_ctx_create]]
  if env.av_hwdevice_ctx_create < 0 then
    some ⟨true, -1, true, t1 ++ [Call.print true Msg.vaapiDeviceFailed]⟩
  else
    let ret := env.av_hwdevice_ctx_create
    let t2 := t1 ++ [Call.call Fn.av_packet_alloc [ptr env.av_packet_alloc]]
    if !env.av_packet_alloc then
      some ⟨false, ret, true, t2 ++ [Call.print true Msg.packetAllocFailed]⟩
    else
      let ret := env.avformat_open_input
      let t3 := t2 ++ [Call.call Fn.avformat_open_input [ret]]
      if ret < 0 then some ⟨false, ret, true, t3 ++ [Call.print true Msg.cannotOpenInput]⟩
      else
        let ret := env.avformat_find_stream_info
        let t4 := t3 ++ [Call.call Fn.avformat_find_stream_info [ret]]
        if ret < 0 then some ⟨false, ret, true, t4 ++ [Call.print true Msg.noStreamInfo]⟩
        else
          let ret := env.av_find_best_stream
          let t5 := t4 ++ [Call.call Fn.av_find_best_stream [ret]]
          if ret < 0 then
            some ⟨false, ret, true, t5 ++ [Call.print true Msg.noVideoStream]⟩
          else
            let video_stream := ret
            let t6 := t5 ++
              [Call.call Fn.avcodec_alloc_context3 [ptr env.avcodec_alloc_context3]]
            if !env.avcodec_alloc_context3 then some ⟨false, ret, true, t6⟩
            else
              let ret := env.parameters_to_context
              let t7 := t6 ++ [Call.call Fn.avcodec_parameters_to_context [ret]]
              if ret < 0 then
                some ⟨false, ret, true, t7 ++ [Call.print true Msg.parametersToContextError]⟩
              else
                let t8 := t7 ++ [Call.call Fn.av_buffer_ref [ptr env.av_buffer_ref]]
                if !env.av_buffer_ref then
                  some ⟨false, ret, true, t8 ++ [Call.print true Msg.hwRefFailed]⟩
                else
                  let o := openDecoder env
                  let t9 := t8 ++ o.calls
                  if !o.ok then some ⟨false, o.ret, o.va_enable, t9⟩
                  else
                    (present K env video_stream o.ret).map
                      (fun r => ⟨false, r.1, o.va_enable, t9 ++ r.2⟩)

/-- Lines 347-350: what follows the `do` block. -/
def teardown : List Call :=
  [Call.call Fn.avformat_close_input [], Call.call Fn.avcodec_free_context [],
   Call.call Fn.av_buffer_unref [], Call.call Fn.av_packet_free []]

/-- What a finished run of `main` looks like from outside: the value returned,
the final `va_enable`, and every call made, in order. -/
structure Run where
  ret : Int
  va_enable : Bool
  trace : List Call
deriving DecidableEq

/-- Lines 132-353.  `none` when the script of `env` ends while the render loop
is still running. -/
def main (K : Headers) (argc : Int) (env : Env) : Option Run :=
  if argc = 1 then some ⟨0, true, [Call.print false Msg.usage]⟩
  else
    (doBlock K env).map (fun b =>
      if b.returned then ⟨b.ret, b.va_enable, b.trace⟩
      else ⟨b.ret, b.va_enable, b.trace ++ teardown⟩)

/-! ## Concrete inputs -/

/-- Header values of FFmpeg 6 / SDL 2 / GLEW 2 on Linux. -/
def linuxHeaders : Headers :=
  ⟨-1, 44, 256, 512, 5, 0, 0⟩

/-- A run in which every set-up call succeeds and the file holds no packet:
the first `av_read_frame` answers `AVERROR_EOF` (-541478725). -/
def emptyFile : Env :=
  { av_hwdevice_ctx_create := 0, av_packet_alloc := true, avformat_open_input := 0,
    avformat_find_stream_info := 0, av_find_best_stream := 0,
    avcodec_alloc_context3 := true, parameters_to_context := 0,
    av_buffer_ref := true, open2_first := 0, parameters_to_context_again := 0,
    avcodec_find_decoder := true, open2_second := 0, SDL_Init := 0,
    SDL_CreateWindow := true, glewInit := 0, vertexShader := 1, vertexStatus := 1,
    fragmentShader := 2, fragmentStatus := 1, program := 3, linkStatus := 1,
    vbo := 1, texture := 1, windowID := 1,
    script := [⟨[], -541478725, 0⟩] }

/-- A file with audio only: `av_find_best_stream` answers
`AVERROR_STREAM_NOT_FOUND` (-1381258232). -/
def audioOnly : Env :=
  { emptyFile with av_find_best_stream := -1381258232 }

/-! ## Reading traces -/

/-- The FFmpeg functions among `Fn`; all others belong to SDL, GLEW or
OpenGL. -/
def Fn.isFFmpeg : Fn → Bool
  | Fn.av_hwdevice_ctx_create | Fn.av_packet_alloc | Fn.avformat_open_input
  | Fn.avformat_find_stream_info | Fn.av_find_best_stream
  | Fn.avcodec_alloc_context3 | Fn.avcodec_parameters_to_context
  | Fn.av_buffer_ref | Fn.avcodec_find_decoder | Fn.av_read_frame
  | Fn.av_packet_unref | Fn.avformat_close_input | Fn.avcodec_free_context
  | Fn.av_buffer_unref | Fn.av_packet_free => true
  | _ => false

/-- Whether the call goes to the windowing or GPU layer (SDL, GLEW, OpenGL). -/
def Call.isWindowOrGpu : Call → Bool
  | Call.call f _ => !f.isFFmpeg
  | Call.SDL_PollEvent _ => true
  | _ => false

/-- Whether the call is a call of `f`, whatever the arguments. -/
def Call.isFn (f : Fn) : Call → Bool
  | Call.call g _ => decide (g = f)
  | _ => false

/-- How often `f` is called in a trace. -/
def timesCalled (f : Fn) (t : List Call) : Nat :=
  t.countP (Call.isFn f)

/-- Whether the call is a call of `avcodec_open2`. -/
def Call.isOpen2 : Call → Bool
  | Call.avcodec_open2 _ _ => true
  | _ => false

/-- How often `avcodec_open2` is called in a trace. -/
def timesOpened (t : List Call) : Nat :=
  t.countP Call.isOpen2

/-- The calls that can occur inside the `while(run)` loop. -/
def Call.inLoop : Call → Bool
  | Call.SDL_PollEvent _ => true
  | Call.call f _ =>
    match f with
    | Fn.SDL_GetPerformanceCounter | Fn.SDL_GetPerformanceFrequency
    | Fn.SDL_GetWindowID | Fn.SDL_GetWindowSize | Fn.glViewport | Fn.av_read_frame
    | Fn.av_packet_unref | Fn.glClear | Fn.glClearColor | Fn.glUseProgram
    | Fn.glActiveTexture | Fn.glBindTexture | Fn.glBindBuffer | Fn.glDrawArrays
    | Fn.SDL_GL_SwapWindow => true
    | _ => false
  | _ => false

/-- A pass after which the loop goes on: the read succeeded and no polled
event was a quit event. -/
def Continues (K : Headers) (it : Iteration) : Prop :=
  0 ≤ it.read ∧ ∀ p ∈ it.events, p.event.type ≠ K.SDL_QUIT

/-- All calls of one pass of the loop: lines 289-311, and lines 313-335 when the
read succeeded. -/
def passCalls (K : Headers) (env : Env) (video_stream : Int)
    (shader_program vbo texture : Nat) (it : Iteration) : List Call :=
  (passHead K env it).2 ++
    (if it.read < 0 then [] else passTail video_stream shader_program vbo texture it)

/-- The calls of lines 154-197 when each of them succeeds. -/
def decodeSetupCalls (env : Env) : List Call :=
  [Call.call Fn.av_hwdevice_ctx_create [env.av_hwdevice_ctx_create],
   Call.call Fn.av_packet_alloc [ptr env.av_packet_alloc],
   Call.call Fn.avformat_open_input [env.avformat_open_input],
   Call.call Fn.avformat_find_stream_info [env.avformat_find_stream_info],
   Call.call Fn.av_find_best_stream [env.av_find_best_stream],
   Call.call Fn.avcodec_alloc_context3 [ptr env.avcodec_alloc_context3],
   Call.call Fn.avcodec_parameters_to_context [env.parameters_to_context],
   Call.call Fn.av_buffer_ref [ptr env.av_buffer_ref]]

/-- Every step of lines 154-201 succeeds, so that line 204 is reached. -/
def ReachesOpen (env : Env) : Prop :=
  0 ≤ env.av_hwdevice_ctx_create ∧ env.av_packet_alloc = true ∧
  0 ≤ env.avformat_open_input ∧ 0 ≤ env.avformat_find_stream_info ∧
  0 ≤ env.av_find_best_stream ∧ env.avcodec_alloc_context3 = true ∧
  0 ≤ env.parameters_to_context ∧ env.av_buffer_ref = true

instance (env : Env) : Decidable (ReachesOpen env) := by
  unfold ReachesOpen
  infer_instance

/-- A decoder gets opened: at the first attempt, or at the second after the
parameters were applied again and a decoder was found by codec id. -/
def DecoderOpens (env : Env) : Prop :=
  0 ≤ env.open2_first ∨
    (0 ≤ env.parameters_to_context_again ∧ env.avcodec_find_decoder = true ∧
      0 ≤ env.open2_second)

instance (env : Env) : Decidable (DecoderOpens env) := by
  unfold DecoderOpens
  infer_instance

/-- Every step of lines 230-258 succeeds, so that the render loop is reached. -/
def WindowOk (K : Headers) (env : Env) : Prop :=
  0 ≤ env.SDL_Init ∧ env.SDL_CreateWindow = true ∧ K.GLEW_OK = env.glewInit ∧
  K.GL_FALSE ≠ env.vertexStatus ∧ K.GL_FALSE ≠ env.fragmentStatus ∧
  K.GL_FALSE ≠ env.linkStatus ∧ env.program ≠ 0

instance (K : Headers) (env : Env) : Decidable (WindowOk K env) := by
  unfold WindowOk
  infer_instance

/-- The whole set-up succeeds: lines 154-258 reach the render loop. -/
def SetupOk (K : Headers) (env : Env) : Prop :=
  ReachesOpen env ∧ DecoderOpens env ∧ WindowOk K env

instance (K : Headers) (env : Env) : Decidable (SetupOk K env) := by
  unfold SetupOk
  infer_instance

/-- The calls of lines 230-255 when each of them succeeds. -/
def windowSetupCalls (K : Headers) (env : Env) : List Call :=
  [Call.call Fn.SDL_Init [env.SDL_Init],
   Call.call Fn.SDL_CreateWindow [ptr env.SDL_CreateWindow],
   Call.call Fn.SDL_GL_CreateContext [],
   Call.call Fn.glewInit [env.glewInit]] ++ (BuildShader K env).2

/-- The calls that can occur in lines 154-201. -/
def Call.inDecodeSetup : Call → Bool
  | Call.print _ _ => true
  | Call.call f _ =>
    match f with
    | Fn.av_hwdevice_ctx_create | Fn.av_packet_alloc | Fn.avformat_open_input
    | Fn.avformat_find_stream_info | Fn.av_find_best_stream
    | Fn.avcodec_alloc_context3 | Fn.avcodec_parameters_to_context
    | Fn.av_buffer_ref => true
    | _ => false
  | _ => false

/-- The calls that can occur in lines 204-228. -/
def Call.inOpenDecoder : Call → Bool
  | Call.print _ _ => true
  | Call.avcodec_open2 _ _ => true
  | Call.call f _ =>
    match f with
    | Fn.avcodec_parameters_to_context | Fn.avcodec_find_decoder => true
    | _ => false
  | _ => false

/-- The calls that can occur in lines 230-344. -/
def Call.inPresent : Call → Bool
  | Call.print _ _ => true
  | Call.SDL_PollEvent _ => true
  | Call.call f _ =>
    match f with
    | Fn.av_read_frame | Fn.av_packet_unref => true
    | g => !g.isFFmpeg
  | _ => false

/-- The four functions called after the `do` block (lines 347-350). -/
def Fn.isTeardown : Fn → Bool
  | Fn.avformat_close_input | Fn.avcodec_free_context | Fn.av_buffer_unref
  | Fn.av_packet_free => true
  | _ => false

/-- Whether the call is one of the four calls of lines 347-350. -/
def Call.isTeardown : Call → Bool
  | Call.call f _ => f.isTeardown
  | _ => false

/-- Call `x` occurs in the trace, and earlier than any occurrence of `y`. -/
def precedes (x y : Call) (t : List Call) : Prop :=
  t.indexOf x < t.indexOf y

instance (x y : Call) (t : List Call) : Decidable (precedes x y t) := by
  unfold precedes
  infer_instance

/-- A run in which everything succeeds up to `SDL_Init`, which fails. -/
def sdlInitFails : Env :=
  { emptyFile with SDL_Init := -1 }

/-- A run in which everything succeeds up to `BuildShader`, where the vertex
shader does not compile (`GL_COMPILE_STATUS` is `GL_FALSE`). -/
def shaderFails : Env :=
  { emptyFile with vertexStatus := 0 }

/-- A run in which the hardware open fails and applying the codec parameters
again fails too (`AVERROR(EINVAL)`, -22). -/
def reapplyFails : Env :=
  { emptyFile with open2_first := -1, parameters_to_context_again := -22 }

/-- A run in which both the hardware open and the open of the decoder found by
codec id fail. -/
def bothOpensFail : Env :=
  { emptyFile with open2_first := -1, open2_second := -22 }

/-- A resize event in SDL's sense: a window event (`event.type` is
`SDL_WINDOWEVENT`) whose `event.window.event` is `SDL_WINDOWEVENT_RESIZED`. -/
def IsResizeEvent (K : Headers) (e : SDL_Event) : Prop :=
  e.type = K.SDL_WINDOWEVENT ∧ e.window_event = K.SDL_WINDOWEVENT_RESIZED

instance (K : Headers) (e : SDL_Event) : Decidable (IsResizeEvent K e) := by
  unfold IsResizeEvent
  infer_instance

/-! ## Theorems -/

/-! ### The event loop and the render loop -/

theorem pollEvents_run (K : Headers) (env : Env) (evs : List Polled) :
    (pollEvents K env evs).1 = true ↔ ∀ p ∈ evs, p.event.type ≠ K.SDL_QUIT := by
  induction evs with
  | nil => simp [pollEvents]
  | cons p ps ih =>
    by_cases hq : p.event.type = K.SDL_QUIT
    · simp [pollEvents, hq]
    · simp [pollEvents, hq, ih]

theorem handleWindowEvent_inLoop (K : Headers) (env : Env) (p : Polled) :
    ∀ c ∈ handleWindowEvent K env p, c.inLoop = true := by
  unfold handleWindowEvent
  split_ifs <;> simp [Call.inLoop]

theorem pollEvents_inLoop (K : Headers) (env : Env) (evs : List Polled) :
    ∀ c ∈ (pollEvents K env evs).2, c.inLoop = true := by
  induction evs with
  | nil => simp [pollEvents, Call.inLoop]
  | cons p ps ih =>
    by_cases hq : p.event.type = K.SDL_QUIT
    · simp [pollEvents, hq, Call.inLoop]
    · intro c hc
      simp only [pollEvents, if_neg hq, List.mem_cons, List.mem_append] at hc
      rcases hc with rfl | hc | hc
      · rfl
      · exact handleWindowEvent_inLoop K env p c hc
      · exact ih c hc

theorem passCalls_inLoop (K : Headers) (env : Env) (video_stream : Int)
    (shader_program vbo texture : Nat) (it : Iteration) :
    ∀ c ∈ passCalls K env video_stream shader_program vbo texture it,
      c.inLoop = true := by
  intro c hc
  simp only [passCalls, passHead, passTail, decodeAndUpdate, draw, List.mem_append,
    List.mem_cons, ite_self] at hc
  rcases hc with ((hc | hc) | hc) | hc
  · rcases hc with rfl | rfl | hc
    · rfl
    · rfl
    · simp at hc
  · exact pollEvents_inLoop K env _ c hc
  · rcases hc with rfl | hc
    · rfl
    · simp at hc
  · split_ifs at hc
    · simp at hc
    · simp at hc
      rcases hc with rfl | rfl | rfl | rfl | rfl | rfl | rfl | rfl | rfl | rfl | rfl | rfl <;> rfl

/-- The loop either runs out of script or stops after some pass `n`; its calls
are those of the first `n` passes, and `ret` is the read result of the last. -/
theorem renderLoop_passes (K : Headers) (env : Env) (video_stream : Int)
    (shader_program vbo texture : Nat) (script : List Iteration) (r : Int × List Call)
    (h : renderLoop K env video_stream shader_program vbo texture script = some r) :
    ∃ n, 0 < n ∧ n ≤ script.length ∧
      r.2 = ((script.take n).map
        (passCalls K env video_stream shader_program vbo texture)).flatten ∧
      ∃ last, (script.take n).getLast? = some last ∧ r.1 = last.read := by
  induction script generalizing r with
  | nil => simp [renderLoop] at h
  | cons it rest ih =>
    simp only [renderLoop] at h
    by_cases hread : it.read < 0
    · simp only [if_pos hread, Option.some.injEq] at h
      subst h
      exact ⟨1, by simp, by simp, by simp [passCalls, hread], it, by simp, rfl⟩
    · simp only [if_neg hread] at h
      by_cases hrun : (passHead K env it).1 = true
      · simp only [if_pos hrun, Option.map_eq_some'] at h
        obtain ⟨r', hr', rfl⟩ := h
        obtain ⟨n, hn0, hn, htr, last, hlast, hret⟩ := ih r' hr'
        refine ⟨n + 1, by omega, by simp [hn], ?_, last, ?_, hret⟩
        · simp [passCalls, hread, htr]
        · obtain ⟨m, rfl⟩ : ∃ m, n = m + 1 := ⟨n - 1, by omega⟩
          cases rest with
          | nil => simp at hn
          | cons a as =>
            simpa [List.take, List.getLast?_cons_cons] using hlast
      · simp only [if_neg hrun, Option.some.injEq] at h
        subst h
        exact ⟨1, by simp, by simp, by simp [passCalls, hread], it, by simp, rfl⟩

theorem renderLoop_inLoop (K : Headers) (env : Env) (video_stream : Int)
    (shader_program vbo texture : Nat) (script : List Iteration) (r : Int × List Call)
    (h : renderLoop K env video_stream shader_program vbo texture script = some r) :
    ∀ c ∈ r.2, c.inLoop = true := by
  obtain ⟨n, -, -, htr, -⟩ := renderLoop_passes K env video_stream shader_program vbo
    texture script r h
  intro c hc
  rw [htr, List.mem_flatten] at hc
  obtain ⟨l, hl, hcl⟩ := hc
  rw [List.mem_map] at hl
  obtain ⟨it, -, rfl⟩ := hl
  exact passCalls_inLoop K env video_stream shader_program vbo texture it c hcl

/-- Passes that go on are simply prepended to what the rest of the script
gives. -/
theorem renderLoop_append (K : Headers) (env : Env) (video_stream : Int)
    (shader_program vbo texture : Nat) (pre rest : List Iteration)
    (hpre : ∀ it ∈ pre, Continues K it) :
    renderLoop K env video_stream shader_program vbo texture (pre ++ rest) =
      (renderLoop K env video_stream shader_program vbo texture rest).map
        (fun r => (r.1, (pre.map
          (passCalls K env video_stream shader_program vbo texture)).flatten ++ r.2)) := by
  induction pre with
  | nil => simp
  | cons it pre ih =>
    have hit : Continues K it := hpre it (List.mem_cons_self _ _)
    have hrest : ∀ j ∈ pre, Continues K j := fun j hj => hpre j (List.mem_cons_of_mem _ hj)
    have hread : ¬ it.read < 0 := not_lt.mpr hit.1
    have hrun : (passHead K env it).1 = true := (pollEvents_run K env it.events).mpr hit.2
    have step : renderLoop K env video_stream shader_program vbo texture
        (it :: (pre ++ rest)) =
        (renderLoop K env video_stream shader_program vbo texture (pre ++ rest)).map
          (fun r => (r.1, passCalls K env video_stream shader_program vbo texture it
            ++ r.2)) := by
      simp [renderLoop, hread, hrun, passCalls]
    rw [List.cons_append, step, ih hrest, Option.map_map]
    congr 1
    funext r
    simp [List.append_assoc]

/-- Event polling calls nothing but `SDL_PollEvent`, `SDL_GetWindowID`,
`SDL_GetWindowSize` and `glViewport`. -/
theorem pollEvents_timesCalled_zero (K : Headers) (env : Env) (f : Fn)
    (h1 : f ≠ Fn.SDL_GetWindowID) (h2 : f ≠ Fn.SDL_GetWindowSize)
    (h3 : f ≠ Fn.glViewport) (evs : List Polled) :
    timesCalled f (pollEvents K env evs).2 = 0 := by
  have hw : ∀ p, timesCalled f (handleWindowEvent K env p) = 0 := by
    intro p
    unfold handleWindowEvent timesCalled
    split_ifs <;> simp [Call.isFn, Ne.symm h1, Ne.symm h2, Ne.symm h3]
  induction evs with
  | nil => simp [pollEvents, timesCalled, Call.isFn]
  | cons p ps ih =>
    by_cases hq : p.event.type = K.SDL_QUIT
    · simp [pollEvents, hq, timesCalled, Call.isFn]
    · have hw' := hw p
      simp only [timesCalled] at ih hw' ⊢
      simp [pollEvents, hq, List.countP_cons, List.countP_append, ih, hw', Call.isFn]

/-- Polling up to a quit event: `run` becomes false and the last call is the
`SDL_PollEvent` that delivered the quit event. -/
theorem pollEvents_quit (K : Headers) (env : Env) (evs₁ : List Polled) (q : Polled)
    (evs₂ : List Polled) (h₁ : ∀ p ∈ evs₁, p.event.type ≠ K.SDL_QUIT)
    (hq : q.event.type = K.SDL_QUIT) :
    ∃ before, pollEvents K env (evs₁ ++ q :: evs₂) =
      (false, before ++ [Call.SDL_PollEvent (some q.event)]) := by
  induction evs₁ with
  | nil => exact ⟨[], by simp [pollEvents, hq]⟩
  | cons p ps ih =>
    have hp : p.event.type ≠ K.SDL_QUIT := h₁ p (List.mem_cons_self _ _)
    obtain ⟨b, hb⟩ := ih (fun x hx => h₁ x (List.mem_cons_of_mem _ hx))
    exact ⟨Call.SDL_PollEvent (some p.event) :: (handleWindowEvent K env p ++ b), by
      simp [pollEvents, hp, hb]⟩

/-! ### The structure of a run of `main` -/

theorem BuildShader_inPresent (K : Headers) (env : Env) :
    ∀ c ∈ (BuildShader K env).2, c.inPresent = true := by
  unfold BuildShader
  simp only
  split_ifs <;> simp [Call.inPresent, Fn.isFFmpeg]

theorem inLoop_inPresent (c : Call) (h : c.inLoop = true) : c.inPresent = true := by
  cases c with
  | call f args => cases f <;> simp_all [Call.inLoop, Call.inPresent, Fn.isFFmpeg]
  | avcodec_open2 d x => simp [Call.inLoop] at h
  | print b m => rfl
  | SDL_PollEvent e => rfl

theorem present_inPresent (K : Headers) (env : Env) (video_stream ret : Int)
    (r : Int × List Call) (h : present K env video_stream ret = some r) :
    ∀ c ∈ r.2, c.inPresent = true := by
  have hb := BuildShader_inPresent K env
  unfold present at h
  simp only at h
  split_ifs at h
  · simp only [Option.some.injEq] at h
    subst h
    simp [Call.inPresent, Fn.isFFmpeg]
  · simp only [Option.some.injEq] at h
    subst h
    simp [Call.inPresent, Fn.isFFmpeg]
  · simp only [Option.some.injEq] at h
    subst h
    simp [Call.inPresent, Fn.isFFmpeg]
  · simp only [Option.some.injEq] at h
    subst h
    intro c hc
    simp only [List.mem_append, List.mem_cons, List.mem_singleton, List.not_mem_nil,
      or_false] at hc
    rcases hc with ((rfl | rfl) | (rfl | rfl)) | hc
    · rfl
    · rfl
    · rfl
    · rfl
    · exact hb c hc
  · rw [Option.map_eq_some'] at h
    obtain ⟨l, hl, rfl⟩ := h
    have hloop := renderLoop_inLoop K env _ _ _ _ _ l hl
    intro c hc
    simp only [List.mem_append, List.mem_cons, List.mem_singleton, List.not_mem_nil,
      or_false] at hc
    rcases hc with ((((((rfl | rfl) | (rfl | rfl)) | hc) | hc) | hc) | hc)
    · rfl
    · rfl
    · rfl
    · rfl
    · exact hb c hc
    · simp [createGpuObjects] at hc
      rcases hc with rfl | rfl | rfl | rfl | rfl | rfl | rfl | rfl | rfl | rfl | rfl |
        rfl | rfl | rfl | rfl | rfl <;> rfl
    · exact inLoop_inPresent c (hloop c hc)
    · simp [destroyGpuObjects] at hc
      rcases hc with rfl | rfl | rfl | rfl | rfl | rfl <;> rfl

theorem openDecoder_inOpenDecoder (env : Env) :
    ∀ c ∈ (openDecoder env).calls, c.inOpenDecoder = true := by
  unfold openDecoder
  simp only
  split_ifs <;> simp [Call.inOpenDecoder]

theorem openDecoder_ok (env : Env) : (openDecoder env).ok = true ↔ DecoderOpens env := by
  unfold openDecoder DecoderOpens
  simp only
  split_ifs <;> simp_all

/-- Lines 152-345 once line 204 is reached. -/
theorem doBlock_reachesOpen (K : Headers) (env : Env) (h : ReachesOpen env) :
    doBlock K env =
      if (openDecoder env).ok = true then
        (present K env env.av_find_best_stream (openDecoder env).ret).map
          (fun r => ⟨false, r.1, (openDecoder env).va_enable,
            decodeSetupCalls env ++ (openDecoder env).calls ++ r.2⟩)
      else
        some ⟨false, (openDecoder env).ret, (openDecoder env).va_enable,
          decodeSetupCalls env ++ (openDecoder env).calls⟩ := by
  obtain ⟨h1, h2, h3, h4, h5, h6, h7, h8⟩ := h
  simp only [doBlock, not_lt.mpr h1, h2, not_lt.mpr h3, not_lt.mpr h4, not_lt.mpr h5, h6,
    not_lt.mpr h7, h8, if_false, Bool.not_true, Bool.false_eq_true, decodeSetupCalls]
  by_cases hok : (openDecoder env).ok = true
  · simp [hok]
  · simp [hok]

/-- Lines 230-344 when window, context, GLEW and shader succeed. -/
theorem present_windowOk (K : Headers) (env : Env) (video_stream ret : Int)
    (h : WindowOk K env) :
    present K env video_stream ret =
      (renderLoop K env video_stream env.program env.vbo env.texture env.script).map
        (fun r => (r.1, windowSetupCalls K env ++
          createGpuObjects env.program env.vbo env.texture ++ r.2 ++
          destroyGpuObjects env.program env.vbo env.texture)) := by
  obtain ⟨h1, h2, h3, h4, h5, h6, h7⟩ := h
  have hb : (BuildShader K env).1 = env.program := by
    simp [BuildShader, h4, h5, h6]
  simp only [present, not_lt.mpr h1, h2, h3, hb, h7, windowSetupCalls, if_false,
    Bool.not_true, Bool.false_eq_true, ne_eq, not_true_eq_false]
  rfl

/-- The calls of lines 152-345 come in three groups: decode set-up, then
possibly the calls of `openDecoder`, then the calls of `present`. -/
theorem doBlock_structure (K : Headers) (env : Env) (b : Body)
    (h : doBlock K env = some b) :
    ∃ head od tail, b.trace = head ++ od ++ tail ∧
      (∀ c ∈ head, c.inDecodeSetup = true) ∧
      (od = [] ∨ od = (openDecoder env).calls) ∧
      (∀ c ∈ tail, c.inPresent = true) := by
  by_cases hreach : ReachesOpen env
  · rw [doBlock_reachesOpen K env hreach] at h
    by_cases hok : (openDecoder env).ok = true
    · rw [if_pos hok, Option.map_eq_some'] at h
      obtain ⟨r, hr, rfl⟩ := h
      exact ⟨decodeSetupCalls env, (openDecoder env).calls, r.2, rfl,
        by simp [decodeSetupCalls, Call.inDecodeSetup], Or.inr rfl,
        present_inPresent K env _ _ r hr⟩
    · rw [if_neg hok, Option.some.injEq] at h
      subst h
      exact ⟨decodeSetupCalls env, (openDecoder env).calls, [], by simp,
        by simp [decodeSetupCalls, Call.inDecodeSetup], Or.inr rfl, by simp⟩
  · refine ⟨b.trace, [], [], by simp, ?_, Or.inl rfl, by simp⟩
    unfold ReachesOpen at hreach
    unfold doBlock at h
    simp only at h
    by_cases h1 : env.av_hwdevice_ctx_create < 0
    · rw [if_pos h1, Option.some.injEq] at h
      subst h
      simp [Call.inDecodeSetup]
    rw [if_neg h1] at h
    by_cases h2 : (!env.av_packet_alloc) = true
    · rw [if_pos h2, Option.some.injEq] at h
      subst h
      simp [Call.inDecodeSetup]
    rw [if_neg h2] at h
    by_cases h3 : env.avformat_open_input < 0
    · rw [if_pos h3, Option.some.injEq] at h
      subst h
      simp [Call.inDecodeSetup]
    rw [if_neg h3] at h
    by_cases h4 : env.avformat_find_stream_info < 0
    · rw [if_pos h4, Option.some.injEq] at h
      subst h
      simp [Call.inDecodeSetup]
    rw [if_neg h4] at h
    by_cases h5 : env.av_find_best_stream < 0
    · rw [if_pos h5, Option.some.injEq] at h
      subst h
      simp [Call.inDecodeSetup]
    rw [if_neg h5] at h
    by_cases h6 : (!env.avcodec_alloc_context3) = true
    · rw [if_pos h6, Option.some.injEq] at h
      subst h
      simp [Call.inDecodeSetup]
    rw [if_neg h6] at h
    by_cases h7 : env.parameters_to_context < 0
    · rw [if_pos h7, Option.some.injEq] at h
      subst h
      simp [Call.inDecodeSetup]
    rw [if_neg h7] at h
    by_cases h8 : (!env.av_buffer_ref) = true
    · rw [if_pos h8, Option.some.injEq] at h
      subst h
      simp [Call.inDecodeSetup]
    exfalso
    apply hreach
    simp only [Bool.not_eq_true', Bool.not_eq_false] at h2 h6 h8
    exact ⟨not_lt.mp h1, h2, not_lt.mp h3, not_lt.mp h4, not_lt.mp h5, h6, not_lt.mp h7, h8⟩

theorem inDecodeSetup_not_teardown (c : Call) (h : c.inDecodeSetup = true) :
    c.isTeardown = false := by
  cases c with
  | call g args => cases g <;> first | rfl | simp [Call.inDecodeSetup] at h
  | avcodec_open2 d x => rfl
  | print s m => rfl
  | SDL_PollEvent e => rfl

theorem inOpenDecoder_not_teardown (c : Call) (h : c.inOpenDecoder = true) :
    c.isTeardown = false := by
  cases c with
  | call g args => cases g <;> first | rfl | simp [Call.inOpenDecoder] at h
  | avcodec_open2 d x => rfl
  | print s m => rfl
  | SDL_PollEvent e => rfl

theorem inPresent_not_teardown (c : Call) (h : c.inPresent = true) :
    c.isTeardown = false := by
  cases c with
  | call g args => cases g <;> first | rfl | simp [Call.inPresent, Fn.isFFmpeg] at h
  | avcodec_open2 d x => rfl
  | print s m => rfl
  | SDL_PollEvent e => rfl

theorem timesCalled_teardown_zero (f : Fn) (hf : f.isTeardown = true) (t : List Call)
    (ht : ∀ c ∈ t, c.isTeardown = false) : timesCalled f t = 0 := by
  unfold timesCalled
  rw [List.countP_eq_zero]
  intro c hc
  have hct := ht c hc
  cases c with
  | call g args =>
    simp only [Call.isFn, decide_eq_true_eq]
    rintro rfl
    simp [Call.isTeardown, hf] at hct
  | avcodec_open2 d x => simp [Call.isFn]
  | print s m => simp [Call.isFn]
  | SDL_PollEvent e => simp [Call.isFn]

/-- The `do` block is left by `return` only when the hardware device could not
be created. -/
theorem doBlock_returned (K : Headers) (env : Env) (b : Body)
    (h : doBlock K env = some b) (hhw : 0 ≤ env.av_hwdevice_ctx_create) :
    b.returned = false := by
  by_cases hreach : ReachesOpen env
  · rw [doBlock_reachesOpen K env hreach] at h
    split_ifs at h
    · rw [Option.map_eq_some'] at h
      obtain ⟨x, -, rfl⟩ := h
      rfl
    · rw [Option.some.injEq] at h
      subst h
      rfl
  · unfold ReachesOpen at hreach
    unfold doBlock at h
    simp only at h
    rw [if_neg (not_lt.mpr hhw)] at h
    by_cases h2 : (!env.av_packet_alloc) = true
    · rw [if_pos h2, Option.some.injEq] at h
      subst h
      rfl
    rw [if_neg h2] at h
    by_cases h3 : env.avformat_open_input < 0
    · rw [if_pos h3, Option.some.injEq] at h
      subst h
      rfl
    rw [if_neg h3] at h
    by_cases h4 : env.avformat_find_stream_info < 0
    · rw [if_pos h4, Option.some.injEq] at h
      subst h
      rfl
    rw [if_neg h4] at h
    by_cases h5 : env.av_find_best_stream < 0
    · rw [if_pos h5, Option.some.injEq] at h
      subst h
      rfl
    rw [if_neg h5] at h
    by_cases h6 : (!env.avcodec_alloc_context3) = true
    · rw [if_pos h6, Option.some.injEq] at h
      subst h
      rfl
    rw [if_neg h6] at h
    by_cases h7 : env.parameters_to_context < 0
    · rw [if_pos h7, Option.some.injEq] at h
      subst h
      rfl
    rw [if_neg h7] at h
    by_cases h8 : (!env.av_buffer_ref) = true
    · rw [if_pos h8, Option.some.injEq] at h
      subst h
      rfl
    exfalso
    apply hreach
    simp only [Bool.not_eq_true', Bool.not_eq_false] at h2 h6 h8
    exact ⟨hhw, h2, not_lt.mp h3, not_lt.mp h4, not_lt.mp h5, h6, not_lt.mp h7, h8⟩

theorem timesOpened_zero (t : List Call)
    (ht : ∀ c ∈ t, c.inDecodeSetup = true ∨ c.inPresent = true ∨ c.isTeardown = true) :
    timesOpened t = 0 := by
  unfold timesOpened
  rw [List.countP_eq_zero]
  intro c hc
  have := ht c hc
  cases c with
  | call g args => simp [Call.isOpen2]
  | avcodec_open2 d x => simp [Call.inDecodeSetup, Call.inPresent, Call.isTeardown] at this
  | print s m => simp [Call.isOpen2]
  | SDL_PollEvent e => simp [Call.isOpen2]

theorem find_decoder_zero (t : List Call)
    (ht : ∀ c ∈ t, c.inDecodeSetup = true ∨ c.inPresent = true ∨ c.isTeardown = true) :
    timesCalled Fn.avcodec_find_decoder t = 0 := by
  unfold timesCalled
  rw [List.countP_eq_zero]
  intro c hc
  have := ht c hc
  cases c with
  | call g args =>
    simp only [Call.isFn, decide_eq_true_eq]
    rintro rfl
    simp [Call.inDecodeSetup, Call.inPresent, Call.isTeardown, Fn.isFFmpeg,
      Fn.isTeardown] at this
  | avcodec_open2 d x => simp [Call.isFn]
  | print s m => simp [Call.isFn]
  | SDL_PollEvent e => simp [Call.isFn]

theorem teardown_isTeardown : ∀ c ∈ teardown, c.isTeardown = true := by
  simp [teardown, Call.isTeardown, Fn.isTeardown]

theorem decodeSetupCalls_inDecodeSetup (env : Env) :
    ∀ c ∈ decodeSetupCalls env, c.inDecodeSetup = true := by
  simp [decodeSetupCalls, Call.inDecodeSetup]

theorem openDecoder_first_ok (env : Env) (h : 0 ≤ env.open2_first) :
    openDecoder env = ⟨true, env.open2_first, true,
      [Call.avcodec_open2 DecoderSource.bestStream env.open2_first]⟩ := by
  simp [openDecoder, not_lt.mpr h]

theorem openDecoder_second (env : Env) (h : env.open2_first < 0)
    (h2 : 0 ≤ env.parameters_to_context_again) (h3 : env.avcodec_find_decoder = true) :
    openDecoder env = ⟨decide (0 ≤ env.open2_second), env.open2_second, false,
      [Call.avcodec_open2 DecoderSource.bestStream env.open2_first,
       Call.print false Msg.tryCpuDecoder,
       Call.call Fn.avcodec_parameters_to_context [env.parameters_to_context_again],
       Call.call Fn.avcodec_find_decoder [1],
       Call.avcodec_open2 DecoderSource.byCodecId env.open2_second] ++
      (if env.open2_second < 0 then [Call.print true Msg.openCodecFailed] else [])⟩ := by
  by_cases h4 : env.open2_second < 0
  · simp [openDecoder, h, not_lt.mpr h2, h3, h4, ptr]
  · simp [openDecoder, h, not_lt.mpr h2, h3, h4, ptr, not_lt.mp h4]

theorem openDecoder_no_second (env : Env) (h : env.open2_first < 0)
    (h2 : ¬ (0 ≤ env.parameters_to_context_again ∧ env.avcodec_find_decoder = true)) :
    (openDecoder env).ok = false ∧ (openDecoder env).va_enable = false ∧
    ∃ rest, (openDecoder env).calls =
      Call.avcodec_open2 DecoderSource.bestStream env.open2_first :: rest ∧
      timesOpened rest = 0 := by
  by_cases h3 : env.parameters_to_context_again < 0
  · simp [openDecoder, h, h3, timesOpened, Call.isOpen2]
  · have h4 : env.avcodec_find_decoder = false := by
      cases hfd : env.avcodec_find_decoder
      · rfl
      · exact absurd ⟨not_lt.mp h3, hfd⟩ h2
    simp [openDecoder, h, h3, h4, timesOpened, Call.isOpen2]

/-- A run that reaches line 204: the decode set-up calls, the calls of
`openDecoder`, and then either the teardown alone (no decoder opened) or the
calls of `present` followed by the teardown. -/
theorem main_reachesOpen (K : Headers) (argc : Int) (env : Env) (r : Run)
    (h : main K argc env = some r) (hargc : argc ≠ 1) (hreach : ReachesOpen env) :
    ∃ tail, r.trace = decodeSetupCalls env ++ (openDecoder env).calls ++ tail ∧
      r.va_enable = (openDecoder env).va_enable ∧
      (∀ c ∈ tail, c.inDecodeSetup = true ∨ c.inPresent = true ∨ c.isTeardown = true) := by
  simp only [main, if_neg hargc, doBlock_reachesOpen K env hreach] at h
  by_cases hok : (openDecoder env).ok = true
  · simp only [if_pos hok, Option.map_map, Option.map_eq_some'] at h
    obtain ⟨p, hp, rfl⟩ := h
    refine ⟨p.2 ++ teardown, by simp [List.append_assoc], rfl, ?_⟩
    intro c hc
    rcases List.mem_append.mp hc with hc | hc
    · exact Or.inr (Or.inl (present_inPresent K env _ _ p hp c hc))
    · exact Or.inr (Or.inr (teardown_isTeardown c hc))
  · simp only [if_neg hok, Option.map_some', Option.some.injEq] at h
    subst h
    exact ⟨teardown, by simp, rfl, fun c hc => Or.inr (Or.inr (teardown_isTeardown c hc))⟩

/-- A run that reaches line 204 and opens no decoder ends with the teardown. -/
theorem main_open_fails (K : Headers) (argc : Int) (env : Env) (hargc : argc ≠ 1)
    (hreach : ReachesOpen env) (hok : (openDecoder env).ok = false) :
    main K argc env = some ⟨(openDecoder env).ret, (openDecoder env).va_enable,
      decodeSetupCalls env ++ (openDecoder env).calls ++ teardown⟩ := by
  simp [main, if_neg hargc, doBlock_reachesOpen K env hreach, hok]

/-- Handling one event calls `glViewport` once when `event.window.event` is
`SDL_WINDOWEVENT_RESIZED` and `event.window.windowID` is the active window's
id, and not at all otherwise.  The type of the event plays no part. -/
theorem handleWindowEvent_glViewport (K : Headers) (env : Env) (p : Polled) :
    timesCalled Fn.glViewport (handleWindowEvent K env p) =
      if p.event.window_event = K.SDL_WINDOWEVENT_RESIZED ∧
          p.event.window_windowID = env.windowID then 1 else 0 := by
  unfold handleWindowEvent timesCalled
  by_cases h1 : p.event.window_event = K.SDL_WINDOWEVENT_RESIZED
  · by_cases h2 : p.event.window_windowID = env.windowID
    · simp [h1, h2, Call.isFn, List.countP_cons]
    · simp [h1, h2, Call.isFn, List.countP_cons]
  · simp [h1]

/-- Over a queue, `glViewport` is called once per event polled before the first
quit event that passes the test of line 302. -/
theorem pollEvents_glViewport (K : Headers) (env : Env) (evs : List Polled) :
    timesCalled Fn.glViewport (pollEvents K env evs).2 =
      (evs.takeWhile (fun p => !decide (p.event.type = K.SDL_QUIT))).countP
        (fun p => decide (p.event.window_event = K.SDL_WINDOWEVENT_RESIZED ∧
          p.event.window_windowID = env.windowID)) := by
  induction evs with
  | nil => simp [pollEvents, timesCalled, Call.isFn]
  | cons p ps ih =>
    by_cases hq : p.event.type = K.SDL_QUIT
    · simp [pollEvents, hq, timesCalled, Call.isFn, List.takeWhile]
    · have h1 := handleWindowEvent_glViewport K env p
      have htw : List.takeWhile (fun p : Polled => !decide (p.event.type = K.SDL_QUIT))
          (p :: ps) = p :: List.takeWhile
            (fun p : Polled => !decide (p.event.type = K.SDL_QUIT)) ps := by
        simp [List.takeWhile, hq]
      rw [htw, List.countP_cons, ← ih]
      simp only [timesCalled] at h1 ⊢
      simp only [pollEvents, if_neg hq, List.countP_cons, List.countP_append, h1,
        Call.isFn]
      simp
      omega

/-! ### The claims -/

/-- C1: for a candidate list `fmts` (entries before the terminator, none of
them `AV_PIX_FMT_NONE`) followed by `AV_PIX_FMT_NONE`, and any codec context,
`get_vaapi_format` returns `AV_PIX_FMT_VAAPI` without writing anything when
`fmts` contains it, and otherwise returns `AV_PIX_FMT_NONE` after writing the
"Unable to decode" message; it returns no other entry. -/
theorem get_vaapi_format_selects {Ctx : Type} (K : Headers) (ctx : Ctx)
    (fmts rest : List Int) (hfmts : ∀ x ∈ fmts, x ≠ K.AV_PIX_FMT_NONE) :
    get_vaapi_format K ctx (fmts ++ K.AV_PIX_FMT_NONE :: rest) =
      some (if K.AV_PIX_FMT_VAAPI ∈ fmts then (K.AV_PIX_FMT_VAAPI, [])
            else (K.AV_PIX_FMT_NONE, [Call.print true Msg.unableVaapi])) := by
  induction fmts with
  | nil => simp [get_vaapi_format]
  | cons p ps ih =>
    have hp : p ≠ K.AV_PIX_FMT_NONE := hfmts p (List.mem_cons_self _ _)
    have hps : ∀ x ∈ ps, x ≠ K.AV_PIX_FMT_NONE :=
      fun x hx => hfmts x (List.mem_cons_of_mem _ hx)
    by_cases hv : p = K.AV_PIX_FMT_VAAPI
    · subst hv
      simp [get_vaapi_format, hp]
    · have hv2 : ¬ K.AV_PIX_FMT_VAAPI = p := fun h => hv h.symm
      simp [get_vaapi_format, hp, hv, hv2, ih hps]

/-- C1 at a concrete list: NV12 (23), VAAPI (44), YUV420P (0), then the
terminator. -/
theorem get_vaapi_format_selects_witness :
    (∀ x ∈ [(23 : Int), 44, 0], x ≠ linuxHeaders.AV_PIX_FMT_NONE) ∧
    get_vaapi_format linuxHeaders () ([23, 44, 0] ++ linuxHeaders.AV_PIX_FMT_NONE :: []) =
      some (if linuxHeaders.AV_PIX_FMT_VAAPI ∈ [(23 : Int), 44, 0]
            then (linuxHeaders.AV_PIX_FMT_VAAPI, [])
            else (linuxHeaders.AV_PIX_FMT_NONE, [Call.print true Msg.unableVaapi])) :=
  ⟨by decide, get_vaapi_format_selects linuxHeaders () [23, 44, 0] [] (by decide)⟩

/-- C3: when `av_find_best_stream` is reached and answers a negative code,
`main` returns that code and the trace holds no call into SDL, GLEW or OpenGL:
`SDL_Init`, `SDL_CreateWindow`, `SDL_GL_CreateContext`, `glewInit` and the
first call of `BuildShader` (`glCreateShader`) are each called zero times. -/
theorem no_video_stream_no_window (K : Headers) (argc : Int) (env : Env)
    (hargc : argc ≠ 1)
    (hhw : 0 ≤ env.av_hwdevice_ctx_create) (hpkt : env.av_packet_alloc = true)
    (hopen : 0 ≤ env.avformat_open_input)
    (hinfo : 0 ≤ env.avformat_find_stream_info)
    (hnone : env.av_find_best_stream < 0) :
    ∃ r, main K argc env = some r ∧ r.ret = env.av_find_best_stream ∧ r.ret < 0 ∧
      (∀ c ∈ r.trace, c.isWindowOrGpu = false) ∧
      timesCalled Fn.SDL_Init r.trace = 0 ∧
      timesCalled Fn.SDL_CreateWindow r.trace = 0 ∧
      timesCalled Fn.SDL_GL_CreateContext r.trace = 0 ∧
      timesCalled Fn.glewInit r.trace = 0 ∧
      timesCalled Fn.glCreateShader r.trace = 0 := by
  have hmain : main K argc env = some ⟨env.av_find_best_stream, true,
      [Call.call Fn.av_hwdevice_ctx_create [env.av_hwdevice_ctx_create],
       Call.call Fn.av_packet_alloc [ptr env.av_packet_alloc],
       Call.call Fn.avformat_open_input [env.avformat_open_input],
       Call.call Fn.avformat_find_stream_info [env.avformat_find_stream_info],
       Call.call Fn.av_find_best_stream [env.av_find_best_stream],
       Call.print true Msg.noVideoStream] ++ teardown⟩ := by
    simp [main, doBlock, hargc, not_lt.mpr hhw, hpkt, not_lt.mpr hopen,
      not_lt.mpr hinfo, hnone]
  refine ⟨_, hmain, rfl, hnone, ?_⟩
  simp [teardown, timesCalled, Call.isFn, Call.isWindowOrGpu, Fn.isFFmpeg]

/-- C3 on the audio-only file. -/
theorem no_video_stream_no_window_witness :
    ((2 : Int) ≠ 1 ∧ 0 ≤ audioOnly.av_hwdevice_ctx_create ∧
      audioOnly.av_packet_alloc = true ∧ 0 ≤ audioOnly.avformat_open_input ∧
      0 ≤ audioOnly.avformat_find_stream_info ∧ audioOnly.av_find_best_stream < 0) ∧
    ∃ r, main linuxHeaders 2 audioOnly = some r ∧
      r.ret = audioOnly.av_find_best_stream ∧ r.ret < 0 ∧
      (∀ c ∈ r.trace, c.isWindowOrGpu = false) ∧
      timesCalled Fn.SDL_Init r.trace = 0 ∧
      timesCalled Fn.SDL_CreateWindow r.trace = 0 ∧
      timesCalled Fn.SDL_GL_CreateContext r.trace = 0 ∧
      timesCalled Fn.glewInit r.trace = 0 ∧
      timesCalled Fn.glCreateShader r.trace = 0 :=
  ⟨⟨by decide, by decide, by decide, by decide, by decide, by decide⟩,
   no_video_stream_no_window linuxHeaders 2 audioOnly (by decide) (by decide)
    (by decide) (by decide) (by decide) (by decide)⟩

/-- C8: when a pass polls a quit event `q`, the loop ends with that pass
whatever the rest of the script holds.  After the `SDL_PollEvent` that delivered
`q` the loop makes the packet read and, when the read succeeded, releases the
packet and performs the whole draw, which ends with `SDL_GL_SwapWindow`; then
nothing more: no further poll, read or draw.  When the read failed the loop is
left before the draw of that pass has begun. -/
theorem quit_completes_pass (K : Headers) (env : Env) (video_stream : Int)
    (shader_program vbo texture : Nat) (pre : List Iteration) (it : Iteration)
    (post : List Iteration) (evs₁ : List Polled) (q : Polled) (evs₂ : List Polled)
    (hpre : ∀ j ∈ pre, Continues K j)
    (hev : it.events = evs₁ ++ q :: evs₂)
    (h₁ : ∀ p ∈ evs₁, p.event.type ≠ K.SDL_QUIT)
    (hq : q.event.type = K.SDL_QUIT) :
    (∃ before,
      renderLoop K env video_stream shader_program vbo texture (pre ++ it :: post) =
        some (it.read,
          before ++ Call.SDL_PollEvent (some q.event) ::
            Call.call Fn.av_read_frame [it.read] ::
            (if it.read < 0 then []
             else Call.call Fn.av_packet_unref [] :: draw shader_program vbo texture))) ∧
    (draw shader_program vbo texture).getLast? = some (Call.call Fn.SDL_GL_SwapWindow []) ∧
    timesCalled Fn.glDrawArrays (draw shader_program vbo texture) = 1 := by
  refine ⟨?_, by simp [draw], by simp [draw, timesCalled, Call.isFn, List.countP_cons]⟩
  obtain ⟨b, hb⟩ := pollEvents_quit K env evs₁ q evs₂ h₁ hq
  rw [renderLoop_append K env video_stream shader_program vbo texture pre _ hpre]
  refine ⟨(pre.map (passCalls K env video_stream shader_program vbo texture)).flatten ++
    ([Call.call Fn.SDL_GetPerformanceCounter [],
      Call.call Fn.SDL_GetPerformanceFrequency []] ++ b), ?_⟩
  by_cases hread : it.read < 0
  · simp [renderLoop, passHead, hev, hb, hread]
  · simp [renderLoop, passHead, passTail, decodeAndUpdate, hev, hb, hread]

/-- C8 on a script whose first pass polls a quit event and reads a packet, with
a second pass left in the script. -/
theorem quit_completes_pass_witness :
    (linuxHeaders.SDL_QUIT = 256) ∧
    ((∃ before,
      renderLoop linuxHeaders emptyFile 0 3 1 1
          ([] ++ ⟨[⟨⟨256, 0, 0⟩, 800, 600⟩], 0, 0⟩ :: [⟨[], 0, 0⟩]) =
        some ((0 : Int),
          before ++ Call.SDL_PollEvent (some ⟨256, 0, 0⟩) ::
            Call.call Fn.av_read_frame [0] ::
            (if (0 : Int) < 0 then []
             else Call.call Fn.av_packet_unref [] :: draw 3 1 1))) ∧
    (draw 3 1 1).getLast? = some (Call.call Fn.SDL_GL_SwapWindow []) ∧
    timesCalled Fn.glDrawArrays (draw 3 1 1) = 1) :=
  ⟨rfl, quit_completes_pass linuxHeaders emptyFile 0 3 1 1 []
    ⟨[⟨⟨256, 0, 0⟩, 800, 600⟩], 0, 0⟩ [⟨[], 0, 0⟩] [] ⟨⟨256, 0, 0⟩, 800, 600⟩ []
    (by simp) rfl (by simp) rfl⟩

/-- C2 at its failing input: every step up to `SDL_Init` succeeds and
`SDL_Init` fails; `main` reports the error on `stderr`, breaks out of the `do`
block with `ret` still holding the 0 of the last `avcodec_open2`, and returns
0. -/
theorem sdl_init_failure_returns_zero :
    ReachesOpen sdlInitFails ∧ DecoderOpens sdlInitFails ∧ sdlInitFails.SDL_Init < 0 ∧
    ∃ r, main linuxHeaders 2 sdlInitFails = some r ∧ r.ret = 0 ∧
      Call.print true Msg.sdlInitError ∈ r.trace := by
  refine ⟨by decide, by decide, by decide, ?_⟩
  exact ⟨_, rfl, by decide, by decide⟩

/-- C4 as stated fails: in the run on `emptyFile`, which reaches the teardown,
`avformat_close_input` is called before `avcodec_free_context`, so the codec
context is not the first to go and the demuxer is closed before it. -/
theorem demuxer_closed_before_codec :
    ∃ r, main linuxHeaders 2 emptyFile = some r ∧
      precedes (Call.call Fn.avformat_close_input []) (Call.call Fn.avcodec_free_context [])
        r.trace ∧
      ¬ precedes (Call.call Fn.avcodec_free_context [])
        (Call.call Fn.avformat_close_input []) r.trace := by
  exact ⟨_, rfl, by decide, by decide⟩

/-- C4, amended: every run of `main` that gets past the creation of the
hardware device ends with exactly these four calls, in this order: close the
demuxer, free the codec context, release the hardware device reference, free
the packet; none of the four functions is called earlier in the run.  So the
hardware device reference is never released before the codec context is
freed. -/
theorem teardown_order (K : Headers) (argc : Int) (env : Env) (r : Run)
    (h : main K argc env = some r) (hargc : argc ≠ 1)
    (hhw : 0 ≤ env.av_hwdevice_ctx_create) :
    ∃ before, r.trace = before ++
        [Call.call Fn.avformat_close_input [], Call.call Fn.avcodec_free_context [],
         Call.call Fn.av_buffer_unref [], Call.call Fn.av_packet_free []] ∧
      timesCalled Fn.avformat_close_input before = 0 ∧
      timesCalled Fn.avcodec_free_context before = 0 ∧
      timesCalled Fn.av_buffer_unref before = 0 ∧
      timesCalled Fn.av_packet_free before = 0 := by
  simp only [main, if_neg hargc, Option.map_eq_some'] at h
  obtain ⟨b, hb, rfl⟩ := h
  have hret : b.returned = false := doBlock_returned K env b hb hhw
  obtain ⟨head, od, tail, htr, hhead, hod, htail⟩ := doBlock_structure K env b hb
  have hod' : ∀ c ∈ od, c.inOpenDecoder = true := by
    rcases hod with rfl | rfl
    · simp
    · exact openDecoder_inOpenDecoder env
  have hall : ∀ c ∈ b.trace, c.isTeardown = false := by
    intro c hc
    rw [htr] at hc
    simp only [List.mem_append] at hc
    rcases hc with (hc | hc) | hc
    · exact inDecodeSetup_not_teardown c (hhead c hc)
    · exact inOpenDecoder_not_teardown c (hod' c hc)
    · exact inPresent_not_teardown c (htail c hc)
  exact ⟨b.trace, by simp [hret, teardown],
    timesCalled_teardown_zero Fn.avformat_close_input rfl _ hall,
    timesCalled_teardown_zero Fn.avcodec_free_context rfl _ hall,
    timesCalled_teardown_zero Fn.av_buffer_unref rfl _ hall,
    timesCalled_teardown_zero Fn.av_packet_free rfl _ hall⟩

/-- C4, amended, on the audio-only file, where the `do` block is left at
line 183. -/
theorem teardown_order_witness :
    main linuxHeaders 2 audioOnly = some ⟨-1381258232, true,
      [Call.call Fn.av_hwdevice_ctx_create [0], Call.call Fn.av_packet_alloc [1],
       Call.call Fn.avformat_open_input [0], Call.call Fn.avformat_find_stream_info [0],
       Call.call Fn.av_find_best_stream [-1381258232],
       Call.print true Msg.noVideoStream,
       Call.call Fn.avformat_close_input [], Call.call Fn.avcodec_free_context [],
       Call.call Fn.av_buffer_unref [], Call.call Fn.av_packet_free []]⟩ ∧
    (2 : Int) ≠ 1 ∧ 0 ≤ audioOnly.av_hwdevice_ctx_create ∧
    ∃ before, (⟨-1381258232, true,
      [Call.call Fn.av_hwdevice_ctx_create [0], Call.call Fn.av_packet_alloc [1],
       Call.call Fn.avformat_open_input [0], Call.call Fn.avformat_find_stream_info [0],
       Call.call Fn.av_find_best_stream [-1381258232],
       Call.print true Msg.noVideoStream,
       Call.call Fn.avformat_close_input [], Call.call Fn.avcodec_free_context [],
       Call.call Fn.av_buffer_unref [], Call.call Fn.av_packet_free []]⟩ : Run).trace =
      before ++
        [Call.call Fn.avformat_close_input [], Call.call Fn.avcodec_free_context [],
         Call.call Fn.av_buffer_unref [], Call.call Fn.av_packet_free []] ∧
      timesCalled Fn.avformat_close_input before = 0 ∧
      timesCalled Fn.avcodec_free_context before = 0 ∧
      timesCalled Fn.av_buffer_unref before = 0 ∧
      timesCalled Fn.av_packet_free before = 0 :=
  ⟨by decide, by decide, by decide,
   teardown_order linuxHeaders 2 audioOnly _ (by decide) (by decide) (by decide)⟩

/-- C9 at its failing input: the vertex shader does not compile, so
`BuildShader` returns 0 and line 258 leaves the `do` block.  By then
`SDL_Init`, `SDL_CreateWindow` and `SDL_GL_CreateContext` have each been called
once, and the run ends without a call of `SDL_GL_DeleteContext`,
`SDL_DestroyWindow` or `SDL_Quit`. -/
theorem shader_failure_leaks_window :
    (BuildShader linuxHeaders shaderFails).1 = 0 ∧
    ∃ r, main linuxHeaders 2 shaderFails = some r ∧
      timesCalled Fn.SDL_Init r.trace = 1 ∧
      timesCalled Fn.SDL_CreateWindow r.trace = 1 ∧
      timesCalled Fn.SDL_GL_CreateContext r.trace = 1 ∧
      timesCalled Fn.SDL_GL_DeleteContext r.trace = 0 ∧
      timesCalled Fn.SDL_DestroyWindow r.trace = 0 ∧
      timesCalled Fn.SDL_Quit r.trace = 0 := by
  refine ⟨by decide, _, rfl, ?_⟩
  decide

/-- C6 as stated fails: on `emptyFile` the set-up succeeds and the first
`av_read_frame` reports the end of the stream (`AVERROR_EOF`); `main` returns
that code, not 0. -/
theorem end_of_stream_exit_code_nonzero :
    SetupOk linuxHeaders emptyFile ∧
    emptyFile.script = [⟨[], -541478725, 0⟩] ∧
    ∃ r, main linuxHeaders 2 emptyFile = some r ∧ r.ret = -541478725 ∧ r.ret ≠ 0 := by
  exact ⟨by decide, rfl, _, rfl, by decide, by decide⟩

/-- C6, amended: when the set-up succeeds and, after passes that go on, a pass
finds `av_read_frame` negative (end of stream or any other read failure), the
loop is left at once, the GPU objects, GL context, window and SDL are released,
the teardown runs, and `main` returns the negative code of `av_read_frame`,
which is not 0. -/
theorem end_of_stream_returns_read_code (K : Headers) (argc : Int) (env : Env)
    (pre : List Iteration) (it : Iteration) (post : List Iteration)
    (hargc : argc ≠ 1) (hs : SetupOk K env)
    (hscript : env.script = pre ++ it :: post)
    (hpre : ∀ j ∈ pre, Continues K j) (heof : it.read < 0) :
    ∃ r before, main K argc env = some r ∧ r.ret = it.read ∧ r.ret ≠ 0 ∧
      r.trace = before ++
        [Call.call Fn.av_read_frame [it.read],
         Call.call Fn.glDeleteBuffers [env.vbo],
         Call.call Fn.glDeleteTextures [env.texture],
         Call.call Fn.glDeleteProgram [env.program],
         Call.call Fn.SDL_GL_DeleteContext [], Call.call Fn.SDL_DestroyWindow [],
         Call.call Fn.SDL_Quit [],
         Call.call Fn.avformat_close_input [], Call.call Fn.avcodec_free_context [],
         Call.call Fn.av_buffer_unref [], Call.call Fn.av_packet_free []] := by
  obtain ⟨hreach, hdec, hwin⟩ := hs
  have hok : (openDecoder env).ok = true := (openDecoder_ok env).mpr hdec
  have hloop : renderLoop K env env.av_find_best_stream env.program env.vbo env.texture
      env.script = some (it.read,
        (pre.map (passCalls K env env.av_find_best_stream env.program env.vbo
          env.texture)).flatten ++ (passHead K env it).2) := by
    rw [hscript, renderLoop_append K env _ _ _ _ pre _ hpre]
    simp [renderLoop, heof]
  have hmain : main K argc env = some ⟨it.read, (openDecoder env).va_enable,
      decodeSetupCalls env ++ (openDecoder env).calls ++
        (windowSetupCalls K env ++ createGpuObjects env.program env.vbo env.texture ++
          ((pre.map (passCalls K env env.av_find_best_stream env.program env.vbo
            env.texture)).flatten ++ (passHead K env it).2) ++
          destroyGpuObjects env.program env.vbo env.texture) ++ teardown⟩ := by
    simp only [main, if_neg hargc, doBlock_reachesOpen K env hreach, if_pos hok,
      present_windowOk K env _ _ hwin, hloop, Option.map_some']
    rfl
  refine ⟨_, decodeSetupCalls env ++ (openDecoder env).calls ++
    (windowSetupCalls K env ++ createGpuObjects env.program env.vbo env.texture ++
      ((pre.map (passCalls K env env.av_find_best_stream env.program env.vbo
        env.texture)).flatten ++
        ([Call.call Fn.SDL_GetPerformanceCounter [],
          Call.call Fn.SDL_GetPerformanceFrequency []] ++
          (pollEvents K env it.events).2))), hmain, rfl, ne_of_lt heof, ?_⟩
  simp [passHead, destroyGpuObjects, teardown, List.append_assoc]

/-- C6, amended, on `emptyFile`. -/
theorem end_of_stream_returns_read_code_witness :
    ((2 : Int) ≠ 1 ∧ SetupOk linuxHeaders emptyFile ∧
      emptyFile.script = [] ++ ⟨[], -541478725, 0⟩ :: [] ∧
      (-541478725 : Int) < 0) ∧
    ∃ r before, main linuxHeaders 2 emptyFile = some r ∧
      r.ret = (⟨[], -541478725, 0⟩ : Iteration).read ∧ r.ret ≠ 0 ∧
      r.trace = before ++
        [Call.call Fn.av_read_frame [(⟨[], -541478725, 0⟩ : Iteration).read],
         Call.call Fn.glDeleteBuffers [emptyFile.vbo],
         Call.call Fn.glDeleteTextures [emptyFile.texture],
         Call.call Fn.glDeleteProgram [emptyFile.program],
         Call.call Fn.SDL_GL_DeleteContext [], Call.call Fn.SDL_DestroyWindow [],
         Call.call Fn.SDL_Quit [],
         Call.call Fn.avformat_close_input [], Call.call Fn.avcodec_free_context [],
         Call.call Fn.av_buffer_unref [], Call.call Fn.av_packet_free []] :=
  ⟨⟨by decide, by decide, rfl, by decide⟩,
   end_of_stream_returns_read_code linuxHeaders 2 emptyFile [] ⟨[], -541478725, 0⟩ []
     (by decide) (by decide) rfl (by simp) (by decide)⟩

/-- C5 as stated fails: on `reapplyFails` the first `avcodec_open2` fails, and
because applying the codec parameters again fails as well, no second
`avcodec_open2` is made: the decoder is opened once in the whole run. -/
theorem failed_first_open_without_second :
    ReachesOpen reapplyFails ∧ reapplyFails.open2_first < 0 ∧
    ∃ r, main linuxHeaders 2 reapplyFails = some r ∧ timesOpened r.trace = 1 ∧
      Call.avcodec_open2 DecoderSource.byCodecId reapplyFails.open2_second ∉ r.trace := by
  exact ⟨by decide, by decide, _, rfl, by decide, by decide⟩

/-- C5, amended.  In every run `avcodec_open2` is called at most twice.  In a
run that reaches line 204: the first call follows directly on the attachment of
the hardware device reference and uses the decoder of `av_find_best_stream`;
when it succeeds it stays the only one, `avcodec_find_decoder` is not called and
`va_enable` is true at the end; when it fails `va_enable` is false at the end,
and a second call is made exactly when applying the codec parameters again
succeeds and `avcodec_find_decoder` finds a decoder, in which case the calls
are, in this order: failed open, message, parameters, `avcodec_find_decoder`,
open with the decoder found.  When that second open fails as well, `main`
returns its negative code without any call into SDL, GLEW or OpenGL and without
reading a packet. -/
theorem decoder_open_attempts (K : Headers) (argc : Int) (env : Env) :
    (∀ r, main K argc env = some r →
      timesOpened r.trace ≤ 2 ∧
      (argc ≠ 1 → ReachesOpen env →
        (∃ a b, r.trace = a ++ Call.call Fn.av_buffer_ref [1] ::
            Call.avcodec_open2 DecoderSource.bestStream env.open2_first :: b ∧
          timesOpened a = 0) ∧
        (0 ≤ env.open2_first →
          r.va_enable = true ∧ timesOpened r.trace = 1 ∧
          timesCalled Fn.avcodec_find_decoder r.trace = 0) ∧
        (env.open2_first < 0 →
          r.va_enable = false ∧
          timesOpened r.trace =
            (if 0 ≤ env.parameters_to_context_again ∧ env.avcodec_find_decoder = true
              then 2 else 1) ∧
          (0 ≤ env.parameters_to_context_again → env.avcodec_find_decoder = true →
            ∃ a b, r.trace = a ++
              [Call.avcodec_open2 DecoderSource.bestStream env.open2_first,
               Call.print false Msg.tryCpuDecoder,
               Call.call Fn.avcodec_parameters_to_context
                 [env.parameters_to_context_again],
               Call.call Fn.avcodec_find_decoder [1],
               Call.avcodec_open2 DecoderSource.byCodecId env.open2_second] ++ b)))) ∧
    (argc ≠ 1 → ReachesOpen env → env.open2_first < 0 →
      0 ≤ env.parameters_to_context_again → env.avcodec_find_decoder = true →
      env.open2_second < 0 →
      ∃ r, main K argc env = some r ∧ r.ret = env.open2_second ∧ r.ret < 0 ∧
        (∀ c ∈ r.trace, c.isWindowOrGpu = false) ∧
        timesCalled Fn.av_read_frame r.trace = 0) := by
  constructor
  · intro r h
    constructor
    · -- at most two opens in any run
      by_cases hargc : argc = 1
      · simp only [main, if_pos hargc, Option.some.injEq] at h
        subst h
        simp [timesOpened, Call.isOpen2]
      · simp only [main, if_neg hargc, Option.map_eq_some'] at h
        obtain ⟨b, hb, rfl⟩ := h
        obtain ⟨head, od, tail, htr, hhead, hod, htail⟩ := doBlock_structure K env b hb
        have h1 : timesOpened head = 0 :=
          timesOpened_zero head (fun c hc => Or.inl (hhead c hc))
        have h2 : timesOpened tail = 0 :=
          timesOpened_zero tail (fun c hc => Or.inr (Or.inl (htail c hc)))
        have h3 : timesOpened teardown = 0 :=
          timesOpened_zero teardown (fun c hc => Or.inr (Or.inr (teardown_isTeardown c hc)))
        have h4 : timesOpened od ≤ 2 := by
          rcases hod with rfl | rfl
          · simp [timesOpened]
          · unfold openDecoder timesOpened
            simp only
            split_ifs <;> simp [Call.isOpen2, List.countP_cons]
        have h5 : timesOpened b.trace ≤ 2 := by
          rw [htr]
          simp only [timesOpened, List.countP_append] at h1 h2 h4 ⊢
          omega
        by_cases hret : b.returned = true
        · simpa [hret] using h5
        · simp only [hret, Bool.false_eq_true, if_false]
          simp only [timesOpened, List.countP_append] at h3 h5 ⊢
          omega
    · intro hargc hreach
      obtain ⟨tail, htr, hva, htail⟩ := main_reachesOpen K argc env r h hargc hreach
      have ht0 : timesOpened tail = 0 := timesOpened_zero tail htail
      have hd0 : timesOpened (decodeSetupCalls env) = 0 :=
        timesOpened_zero _ (fun c hc => Or.inl (decodeSetupCalls_inDecodeSetup env c hc))
      have hbuf : env.av_buffer_ref = true := hreach.2.2.2.2.2.2.2
      refine ⟨?_, ?_, ?_⟩
      · -- the first open follows the hardware reference
        have hfirst : ∃ rest, (openDecoder env).calls =
            Call.avcodec_open2 DecoderSource.bestStream env.open2_first :: rest := by
          unfold openDecoder
          simp only
          split_ifs <;> simp
        obtain ⟨rest, hrest⟩ := hfirst
        refine ⟨(decodeSetupCalls env).take 7, rest ++ tail, ?_, ?_⟩
        · rw [htr, hrest]
          simp [decodeSetupCalls, hbuf, ptr]
        · simp [decodeSetupCalls, timesOpened, Call.isOpen2]
      · intro hfirst
        rw [openDecoder_first_ok env hfirst] at htr hva
        refine ⟨hva, ?_, ?_⟩
        · rw [htr]
          simp only [timesOpened, List.countP_append] at ht0 hd0 ⊢
          simp [ht0, hd0, Call.isOpen2, List.countP_cons]
        · have hd1 := find_decoder_zero _
            (fun c hc => Or.inl (decodeSetupCalls_inDecodeSetup env c hc))
          have ht1 := find_decoder_zero tail htail
          rw [htr]
          simp only [timesCalled, List.countP_append] at ht1 hd1 ⊢
          simp [ht1, hd1, Call.isFn, List.countP_cons]
      · intro hfirst
        by_cases hsec : 0 ≤ env.parameters_to_context_again ∧ env.avcodec_find_decoder = true
        · rw [openDecoder_second env hfirst hsec.1 hsec.2] at htr hva
          refine ⟨hva, ?_, ?_⟩
          · rw [htr, if_pos hsec]
            simp only [timesOpened, List.countP_append] at ht0 hd0 ⊢
            split_ifs <;> simp [ht0, hd0, Call.isOpen2, List.countP_cons]
          · intro _ _
            exact ⟨decodeSetupCalls env,
              (if env.open2_second < 0 then [Call.print true Msg.openCodecFailed] else [])
                ++ tail, by rw [htr]; simp [List.append_assoc]⟩
        · obtain ⟨-, hva', rest, hrest, hrest0⟩ := openDecoder_no_second env hfirst hsec
          refine ⟨hva.trans hva', ?_, ?_⟩
          · rw [htr, hrest, if_neg hsec]
            simp only [timesOpened, List.countP_append, List.countP_cons] at ht0 hd0 hrest0 ⊢
            simp [ht0, hd0, hrest0, Call.isOpen2]
          · intro h1 h2
            exact absurd ⟨h1, h2⟩ hsec
  · intro hargc hreach hfirst hptc hfind hsecond
    have hod := openDecoder_second env hfirst hptc hfind
    have hok : (openDecoder env).ok = false := by
      rw [hod]
      simp [hsecond]
    have hmain := main_open_fails K argc env hargc hreach hok
    rw [hod] at hmain
    refine ⟨_, hmain, rfl, hsecond, ?_, ?_⟩
    · simp [decodeSetupCalls, teardown, hsecond, Call.isWindowOrGpu, Fn.isFFmpeg]
    · simp [decodeSetupCalls, teardown, hsecond, timesCalled, Call.isFn, List.countP_cons]

/-- C5, amended, on `bothOpensFail`: two opens, `va_enable` false, the code of
the second open returned, no window. -/
theorem decoder_open_attempts_witness :
    ((2 : Int) ≠ 1 ∧ ReachesOpen bothOpensFail ∧ bothOpensFail.open2_first < 0 ∧
      0 ≤ bothOpensFail.parameters_to_context_again ∧
      bothOpensFail.avcodec_find_decoder = true ∧ bothOpensFail.open2_second < 0) ∧
    ∃ r, main linuxHeaders 2 bothOpensFail = some r ∧
      (r.ret = -22 ∧ r.ret < 0 ∧ (∀ c ∈ r.trace, c.isWindowOrGpu = false) ∧
        timesCalled Fn.av_read_frame r.trace = 0) ∧
      timesOpened r.trace ≤ 2 ∧ r.va_enable = false ∧ timesOpened r.trace = 2 := by
  refine ⟨⟨by decide, by decide, by decide, by decide, by decide, by decide⟩, ?_⟩
  obtain ⟨r, hr, h1, h2, h3, h4⟩ :=
    (decoder_open_attempts linuxHeaders 2 bothOpensFail).2 (by decide) (by decide)
      (by decide) (by decide) (by decide) (by decide)
  have hall := (decoder_open_attempts linuxHeaders 2 bothOpensFail).1 r hr
  have hfail := (hall.2 (by decide) (by decide)).2.2 (by decide)
  exact ⟨r, hr, ⟨h1, h2, h3, h4⟩, hall.1, hfail.1, hfail.2.1⟩

end AliPlayer
